import Mathlib

/-!
Shallow embedding of the playback-state + position-persistence subsystem of
the `leitura_inclusiva` audiobook reader.

Conventions of the embedding:
* Python floats (playback positions, durations, in seconds) are modelled as
  exact rationals `ℚ`; the properties verified here are arithmetic
  identities of the source's formulas, independent of rounding.
* The external sqlite layer and the external VLC media engine are opaque
  collaborators.  Wherever the source performs a call into one of them that
  can raise, the embedded operation takes an explicit oracle argument
  (`fault`, `engineOk`, ...) saying whether that call succeeds, together
  with the value the collaborator reports (parsed duration in
  milliseconds, engine clock reading in milliseconds, ...).  The embedded
  operation then follows the source's control flow exactly: a `try/except`
  in the source absorbs the failure, the absence of one lets it propagate
  as an `Except.error`.
* The state recorded by the embedding is exactly the state the Python
  objects track in their own fields.
-/

/-! ## Position Store (`src/utils/file_utils.py`)

The store is a single sqlite table
`progress (audiobook_path TEXT PRIMARY KEY, position REAL)`.
We model the table as a list of rows; `REPLACE INTO` on the primary key
deletes any conflicting row and inserts the new one. -/

/-- One row of the `progress` table. -/
structure ProgressRow where
  audiobook_path : String
  position : ℚ
  deriving DecidableEq, Repr

/-- The `progress` table contents. -/
def Store : Type := List ProgressRow

instance : DecidableEq Store := inferInstanceAs (DecidableEq (List ProgressRow))

/-- `save_position`: `REPLACE INTO progress (audiobook_path, position) VALUES (?, ?)`.
On the primary key `audiobook_path`, `REPLACE` removes any existing row with
the same key and inserts the new row. -/
def save_position (db : Store) (audiobook_path : String) (position : ℚ) : Store :=
  ⟨audiobook_path, position⟩ ::
    List.filter (fun r => decide (r.audiobook_path ≠ audiobook_path)) db

/-- `get_position`: `SELECT position FROM progress WHERE audiobook_path = ?`,
then `row[0] if row else 0.0`. -/
def get_position (db : Store) (audiobook_path : String) : ℚ :=
  match List.find? (fun r => decide (r.audiobook_path = audiobook_path)) db with
  | some r => r.position
  | none => 0

/-- Failure of the underlying sqlite layer (`sqlite3.connect` / `execute`
raising). -/
inductive PersistenceError where
  | sqliteError
  deriving DecidableEq, Repr

/-- `save_position` as executed: the source wraps none of the sqlite calls in
`try/except`, so when the sqlite layer fails (`fault = true`) the exception
propagates to the caller and no write happens; otherwise the upsert runs. -/
def save_position_run (fault : Bool) (db : Store) (audiobook_path : String)
    (position : ℚ) : Except PersistenceError Store :=
  if fault then Except.error PersistenceError.sqliteError
  else Except.ok (save_position db audiobook_path position)

/-- `get_position` as executed: the source has no `try/except`, so a sqlite
failure (`fault = true`) propagates to the caller instead of degrading to
`0.0`; otherwise the query runs. -/
def get_position_run (fault : Bool) (db : Store) (audiobook_path : String) :
    Except PersistenceError ℚ :=
  if fault then Except.error PersistenceError.sqliteError
  else Except.ok (get_position db audiobook_path)

/-- Number of rows of the table holding the given key. -/
def Store.keyCount (db : Store) (k : String) : Nat :=
  List.countP (fun r => decide (r.audiobook_path = k)) db

/-- Primary-key discipline: at most one row per key. -/
def Store.wellKeyed (db : Store) : Prop :=
  ∀ k : String, db.keyCount k ≤ 1

/-! ## Playback Engine Adapter (`src/core/audio_player.py`) -/

/-- The fields the `AudioPlayer` object tracks itself (the VLC handle is the
opaque engine). -/
structure AudioPlayer where
  file_path : Option String
  is_loaded : Bool
  is_playing : Bool
  is_paused : Bool
  current_position : ℚ
  duration : ℚ
  deriving DecidableEq, Repr

/-- `AudioPlayer.__init__`. -/
def AudioPlayer.init : AudioPlayer :=
  { file_path := none, is_loaded := false, is_playing := false,
    is_paused := false, current_position := 0, duration := 0 }

/-- Error raised by `load_file` (`FileNotFoundError`, re-raised as
`Failed to load audio file`, or the engine rejecting the media). -/
inductive LoadError where
  | fileNotFound
  | engineFailure
  deriving DecidableEq, Repr

/-- Error raised by `play` (`No audio file loaded`, or the engine call
raising, re-raised as `Failed to play audio`). -/
inductive PlayerError where
  | notLoaded
  | engineFailure
  deriving DecidableEq, Repr

/-- `load_file`: assigns `file_path`; raises `FileNotFoundError` when the
file does not exist; creates/sets the media (engine call, `engineOk`); sets
`duration` from `media.get_duration()` (milliseconds; `ms/1000` when
positive, else `0` — `_get_duration` absorbs its own errors); on success
sets `is_loaded := true` and `current_position := 0`.  The `except` branch
sets `is_loaded := false` and re-raises; the playing/paused flags are left
untouched on both paths. -/
def AudioPlayer.load_file (s : AudioPlayer) (path : String)
    (fileExists engineOk : Bool) (duration_ms : ℤ) :
    AudioPlayer × Option LoadError :=
  if fileExists = false then
    ({ s with file_path := some path, is_loaded := false },
     some LoadError.fileNotFound)
  else if engineOk then
    ({ s with file_path := some path,
              duration := if 0 < duration_ms then (duration_ms : ℚ) / 1000 else 0,
              is_loaded := true,
              current_position := 0 }, none)
  else
    ({ s with file_path := some path, is_loaded := false },
     some LoadError.engineFailure)

/-- `play`: raises `No audio file loaded` when not loaded; otherwise calls
`media_player.play()` (which may raise, re-raised to the caller) and on
success sets `is_playing := true, is_paused := false`. -/
def AudioPlayer.play (s : AudioPlayer) (engineOk : Bool) :
    AudioPlayer × Option PlayerError :=
  if s.is_loaded = false then (s, some PlayerError.notLoaded)
  else if engineOk then
    ({ s with is_playing := true, is_paused := false }, none)
  else (s, some PlayerError.engineFailure)

/-- `pause`: returns immediately when not loaded; otherwise calls the
engine's pause toggle inside `try/except` (a failure is printed and leaves
the flags untouched); on success sets `is_playing := false,
is_paused := true`.  No exception ever propagates. -/
def AudioPlayer.pause (s : AudioPlayer) (engineOk : Bool) : AudioPlayer :=
  if s.is_loaded = false then s
  else if engineOk then { s with is_playing := false, is_paused := true }
  else s

/-- `unpause`: same guard and toggle as `pause`, setting
`is_playing := true, is_paused := false` on success. -/
def AudioPlayer.unpause (s : AudioPlayer) (engineOk : Bool) : AudioPlayer :=
  if s.is_loaded = false then s
  else if engineOk then { s with is_playing := true, is_paused := false }
  else s

/-- `stop`: returns immediately when not loaded; otherwise stops the engine
inside `try/except` (a failure leaves everything untouched); on success
clears both flags and resets `current_position` to `0`. -/
def AudioPlayer.stop (s : AudioPlayer) (engineOk : Bool) : AudioPlayer :=
  if s.is_loaded = false then s
  else if engineOk then
    { s with is_playing := false, is_paused := false, current_position := 0 }
  else s

/-- `set_position`: returns immediately when not loaded; otherwise calls
`media_player.set_time(int(position*1000))` inside `try/except` and, when
that does not raise, stores the raw requested `position` (unclamped) into
`current_position`. -/
def AudioPlayer.set_position (s : AudioPlayer) (engineOk : Bool)
    (position : ℚ) : AudioPlayer :=
  if s.is_loaded = false then s
  else if engineOk then { s with current_position := position }
  else s

/-- `get_position`: returns `0` when not loaded; otherwise reads
`media_player.get_time()` (milliseconds, `position_ms`; VLC reports `-1`
before playback starts) and returns `position_ms/1000` when positive, else
`0`; the `except` branch also returns `0`. -/
def AudioPlayer.get_position (s : AudioPlayer) (engineOk : Bool)
    (position_ms : ℤ) : ℚ :=
  if s.is_loaded = false then 0
  else if engineOk then
    (if 0 < position_ms then (position_ms : ℚ) / 1000 else 0)
  else 0

/-- `get_duration`: returns the stored `duration` field. -/
def AudioPlayer.get_duration (s : AudioPlayer) : ℚ :=
  s.duration

/-- `set_volume`: clamps the argument to `[0,100]` and passes it to the
engine inside `try/except`; no `AudioPlayer` field is touched and no
exception propagates.  The second component is the clamped volume handed to
the engine. -/
def AudioPlayer.set_volume (s : AudioPlayer) (volume : ℤ) : AudioPlayer × ℤ :=
  (s, max 0 (min 100 volume))

/-! ### The adapter as a transition system -/

/-- One adapter command, carrying the oracle inputs of its engine calls. -/
inductive Op where
  | load (path : String) (fileExists engineOk : Bool) (duration_ms : ℤ)
  | play (engineOk : Bool)
  | pause (engineOk : Bool)
  | unpause (engineOk : Bool)
  | stop (engineOk : Bool)
  | seek (engineOk : Bool) (target : ℚ)
  deriving Repr

/-- Whether the command is a `load` that succeeds (file exists and the
engine accepts the media). -/
def Op.loadSucceeds : Op → Bool
  | Op.load _ fileExists engineOk _ => fileExists && engineOk
  | _ => true

/-- Effect of one command on the adapter state (errors raised by `load_file`
and `play` are dropped here; the state component is what the object holds
afterwards either way). -/
def AudioPlayer.step (s : AudioPlayer) : Op → AudioPlayer
  | Op.load path fe ok dms => (s.load_file path fe ok dms).1
  | Op.play ok => (s.play ok).1
  | Op.pause ok => s.pause ok
  | Op.unpause ok => s.unpause ok
  | Op.stop ok => s.stop ok
  | Op.seek ok t => s.set_position ok t

/-- Run a sequence of commands from a state. -/
def AudioPlayer.run (s : AudioPlayer) (ops : List Op) : AudioPlayer :=
  ops.foldl AudioPlayer.step s

/-- Position-bound invariant: the tracked position does not exceed the
duration whenever the duration is known (`> 0`). -/
def AudioPlayer.posInv (s : AudioPlayer) : Prop :=
  0 < s.duration → s.current_position ≤ s.duration

/-! ## Session Controller / UI screen (`src/gui/player_screen.py`)

Only the playback-relevant state of `PlayerScreen` is modelled: its
`AudioPlayer`, its own `is_playing` flag, and `last_position` (a Python
attribute that only exists once `load_audiobook` has assigned it, hence
`Option`). -/

/-- Playback-relevant state of the `PlayerScreen` object. -/
structure PlayerScreen where
  player : AudioPlayer
  is_playing : Bool
  last_position : Option ℚ
  deriving DecidableEq, Repr

/-- `load_audiobook`, modelled to completion of its deferred restore step.
The source: on a fresh `AudioPlayer` (constructed in `__init__`), call
`load_file`; read the saved position from the store into `last_position`;
if the whole `try` body raises, only the error title is shown.  When the
saved position is `> 0`: call `play()` (screen `is_playing := True`), then
a `root.after(500, ...)` deferred step runs `set_position(last_position)`,
`pause()`, and resets the screen flag to `False`.  When it is not `> 0`,
nothing is auto-started.  The oracle arguments are, in order, the success
of the engine calls made by `load_file`, `play`, the deferred
`set_position`, and the deferred `pause`. -/
def PlayerScreen.load_audiobook (db : Store) (path : String)
    (fileExists loadOk playOk seekOk pauseOk : Bool) (duration_ms : ℤ) :
    PlayerScreen :=
  let r := AudioPlayer.init.load_file path fileExists loadOk duration_ms
  match r.2 with
  | some _ => { player := r.1, is_playing := false, last_position := none }
  | none =>
    let last := get_position db path
    if 0 < last then
      let pr := r.1.play playOk
      match pr.2 with
      | some _ =>
        { player := pr.1, is_playing := false, last_position := some last }
      | none =>
        let p3 := pr.1.set_position seekOk last
        let p4 := p3.pause pauseOk
        { player := p4, is_playing := false, last_position := some last }
    else
      { player := r.1, is_playing := false, last_position := some last }

/-- `skip_forward`: reads `get_position()` and `get_duration()`; when
`current_pos + 30 >= duration` the new position is `max(duration - 1, 0)`,
else `current_pos + 30`; then `set_position(new_pos)`.  `posOk`/`pms` feed
the engine-clock read inside `get_position`, `seekOk` the engine seek
inside `set_position`. -/
def PlayerScreen.skip_forward (s : AudioPlayer) (posOk : Bool)
    (position_ms : ℤ) (seekOk : Bool) : AudioPlayer :=
  let current_pos := s.get_position posOk position_ms
  let duration := s.get_duration
  let new_pos :=
    if duration ≤ current_pos + 30 then max (duration - 1) 0
    else current_pos + 30
  s.set_position seekOk new_pos

/-- `skip_backward`: reads `get_position()`; new position is
`max(current_pos - 30, 0)`; then `set_position(new_pos)`. -/
def PlayerScreen.skip_backward (s : AudioPlayer) (posOk : Bool)
    (position_ms : ℤ) (seekOk : Bool) : AudioPlayer :=
  let current_pos := s.get_position posOk position_ms
  let new_pos := max (current_pos - 30) 0
  s.set_position seekOk new_pos

/-- One iteration of the coarse 500 ms `update_progress` poller.  When a
file is loaded it reads `get_position()` and `get_duration()`; only when
`duration > 0` does it hand `(current_pos, duration,
current_pos/duration*100)` to `update_progress_ui`; independently, when the
screen's `is_playing` flag is set and `current_pos >= duration` it signals
`on_audio_finished`.  Returns the UI report (if any) and the finished
signal. -/
def update_progress_tick (s : AudioPlayer) (posOk : Bool) (position_ms : ℤ)
    (screen_is_playing : Bool) : Option (ℚ × ℚ × ℚ) × Bool :=
  if s.is_loaded then
    let current_pos := s.get_position posOk position_ms
    let duration := s.get_duration
    ((if 0 < duration then
        some (current_pos, duration, current_pos / duration * 100)
      else none),
     screen_is_playing && decide (duration ≤ current_pos))
  else (none, false)

/-- A player that has successfully loaded a 120-second file (the engine
reported 120000 ms), used as concrete witness input. -/
def loadedPlayer : AudioPlayer :=
  (AudioPlayer.init.load_file "book.mp3" true true 120000).1

/-- A player that successfully loaded a file whose duration the engine could
not determine (reported 0 ms), used as concrete counterexample input. -/
def unknownDurationPlayer : AudioPlayer :=
  (AudioPlayer.init.load_file "nodur.mp3" true true 0).1

/-! ## Helper lemmas -/

/-- A property preserved by every single command is preserved by every
command sequence. -/
theorem AudioPlayer.run_preserves (P : AudioPlayer → Prop)
    (hstep : ∀ s op, P s → P (s.step op)) :
    ∀ (ops : List Op) (s : AudioPlayer), P s → P (AudioPlayer.run s ops) := by
  intro ops
  induction ops with
  | nil => intro s h; exact h
  | cons op rest ih =>
    intro s h
    have hstep1 : AudioPlayer.run s (op :: rest) = AudioPlayer.run (s.step op) rest := rfl
    rw [hstep1]
    exact ih (s.step op) (hstep s op h)

/-- A property preserved by every command satisfying a side condition is
preserved by every sequence of such commands. -/
theorem AudioPlayer.run_preserves_of_all (P : AudioPlayer → Prop) (Q : Op → Bool)
    (hstep : ∀ s op, Q op = true → P s → P (s.step op)) :
    ∀ (ops : List Op) (s : AudioPlayer),
      (∀ op ∈ ops, Q op = true) → P s → P (AudioPlayer.run s ops) := by
  intro ops
  induction ops with
  | nil => intro s _ h; exact h
  | cons op rest ih =>
    intro s hall h
    have hstep1 : AudioPlayer.run s (op :: rest) = AudioPlayer.run (s.step op) rest := rfl
    rw [hstep1]
    exact ih (s.step op) (fun o ho => hall o (List.mem_cons_of_mem op ho))
      (hstep s op (hall op (List.mem_cons_self op rest)) h)

/-- No single command makes the playing and paused flags simultaneously
true. -/
theorem step_not_both_flags (s : AudioPlayer) (op : Op)
    (h : ¬ (s.is_playing = true ∧ s.is_paused = true)) :
    ¬ ((s.step op).is_playing = true ∧ (s.step op).is_paused = true) := by
  cases op <;>
    simp only [AudioPlayer.step, AudioPlayer.load_file, AudioPlayer.play,
      AudioPlayer.pause, AudioPlayer.unpause, AudioPlayer.stop,
      AudioPlayer.set_position] <;>
    split_ifs <;> simp_all

/-- Commands whose loads succeed preserve "unloaded implies both flags
clear". -/
theorem step_unloaded_flags (s : AudioPlayer) (op : Op)
    (hop : op.loadSucceeds = true)
    (h : s.is_loaded = false → s.is_playing = false ∧ s.is_paused = false) :
    (s.step op).is_loaded = false →
      (s.step op).is_playing = false ∧ (s.step op).is_paused = false := by
  cases op <;>
    simp only [Op.loadSucceeds, Bool.and_eq_true] at hop ⊢ <;>
    simp only [AudioPlayer.step, AudioPlayer.load_file, AudioPlayer.play,
      AudioPlayer.pause, AudioPlayer.unpause, AudioPlayer.stop,
      AudioPlayer.set_position] <;>
    split_ifs <;> simp_all

/-! ## Claims -/

/-- C1: Position Store round-trip with last-write-wins upsert: for every
track key `k` and position `p ≥ 0`, regardless of the store's prior
contents (well-keyed, as sqlite's primary key guarantees), `save(k, p)`
followed by `get(k)` returns `p`; `save(k, p1)` then `save(k, p2)` then
`get(k)` returns `p2`; and the store holds at most one record per key. -/
theorem C1_store_roundtrip (db : Store) (k : String) (p p1 p2 : ℚ)
    (_hp : 0 ≤ p) (hwk : Store.wellKeyed db) :
    get_position (save_position db k p) k = p ∧
    get_position (save_position (save_position db k p1) k p2) k = p2 ∧
    Store.wellKeyed (save_position db k p) := by
  refine ⟨?_, ?_, ?_⟩
  · simp [get_position, save_position, List.find?]
  · simp [get_position, save_position, List.find?]
  · intro k1
    unfold Store.keyCount save_position
    rw [List.countP_cons]
    by_cases hk : k = k1
    · subst hk
      have hzero :
          List.countP (fun r => decide (r.audiobook_path = k))
            (List.filter (fun r => decide (r.audiobook_path ≠ k)) db) = 0 := by
        rw [List.countP_eq_zero]
        intro r hr
        have hmem := List.of_mem_filter hr
        simp at hmem ⊢
        exact hmem
      simp [hzero]
    · have hhead : (decide ((⟨k, p⟩ : ProgressRow).audiobook_path = k1)) = false := by
        simpa using hk
      rw [hhead]
      simp only [Bool.false_eq_true, if_false, Nat.add_zero]
      calc List.countP (fun r => decide (r.audiobook_path = k1))
            (List.filter (fun r => decide (r.audiobook_path ≠ k)) db)
          ≤ List.countP (fun r => decide (r.audiobook_path = k1)) db :=
            List.Sublist.countP_le _ (List.filter_sublist db)
        _ ≤ 1 := hwk k1

/-- Witness for C1 at `k = "t"`, `p = 45`, `p1 = 1`, `p2 = 2` on the empty
store. -/
theorem C1_store_roundtrip_witness :
    (0 ≤ (45 : ℚ)) ∧ Store.wellKeyed ([] : Store) ∧
    (get_position (save_position [] "t" 45) "t" = 45 ∧
     get_position (save_position (save_position [] "t" 1) "t" 2) "t" = 2 ∧
     Store.wellKeyed (save_position [] "t" 45)) :=
  ⟨by norm_num, fun k => by simp [Store.keyCount],
   C1_store_roundtrip [] "t" 45 1 2 (by norm_num)
     (fun k => by simp [Store.keyCount])⟩

/-- C2 counterexample: when the sqlite layer fails, `save_position` and
`get_position` both surface the exception to the caller — `save` does not
degrade to a no-op, `get` does not return `0.0`. -/
theorem C2_store_error_counterexample :
    save_position_run true [] "k" 1 = Except.error PersistenceError.sqliteError ∧
    get_position_run true [] "k" = Except.error PersistenceError.sqliteError :=
  ⟨rfl, rfl⟩

/-- C2 amended: `save_position` and `get_position` contain no exception
handling: when the sqlite layer fails the exception propagates to the
caller (save succeeds in no write, get returns no value); only when the
layer succeeds does save upsert and get return the stored-or-default
position. -/
theorem C2_store_error_propagation (db : Store) (k : String) (p : ℚ) :
    (save_position_run true db k p).isOk = false ∧
    (get_position_run true db k).isOk = false ∧
    save_position_run false db k p = Except.ok (save_position db k p) ∧
    get_position_run false db k = Except.ok (get_position db k) :=
  ⟨rfl, rfl, rfl, rfl⟩

/-- C9: for every key that has no record in the progress table,
`get_position` returns `0.0`. -/
theorem C9_missing_key_default (db : Store) (k : String)
    (h : db.keyCount k = 0) : get_position db k = 0 := by
  unfold Store.keyCount at h
  have hnone : List.find? (fun r => decide (r.audiobook_path = k)) db = none := by
    rw [List.find?_eq_none]
    intro r hr
    have h0 := List.countP_eq_zero.mp h r hr
    simpa using h0
  simp [get_position, hnone]

/-- Witness for C9 on the empty store at key `"x"`. -/
theorem C9_missing_key_default_witness :
    Store.keyCount [] "x" = 0 ∧ get_position [] "x" = 0 :=
  ⟨rfl, C9_missing_key_default [] "x" rfl⟩

/-- C10: `AudioPlayer.get_position` never returns a negative value: `0`
when no file is loaded, `0` when the engine call fails, `0` when the
engine clock reading is non-positive (such as VLC's `-1` sentinel), and
`reading/1000 > 0` otherwise. -/
theorem C10_get_position_nonneg (s : AudioPlayer) (engineOk : Bool)
    (position_ms : ℤ) : 0 ≤ s.get_position engineOk position_ms := by
  unfold AudioPlayer.get_position
  split_ifs with h1 h2 h3
  · exact le_refl 0
  · have hpos : (0 : ℚ) < (position_ms : ℚ) := by exact_mod_cast h3
    positivity
  · exact le_refl 0
  · exact le_refl 0

/-- C4: on an unloaded session, `play` fails with the not-loaded error and
leaves the state unchanged, while `pause`, `stop`, `set_position` and
`set_volume` are silent no-ops: they raise nothing (their engine calls are
guarded or wrapped in `try/except`) and leave every session field
unchanged. -/
theorem C4_unloaded_commands (s : AudioPlayer) (h : s.is_loaded = false)
    (engineOk : Bool) (p : ℚ) (v : ℤ) :
    s.play engineOk = (s, some PlayerError.notLoaded) ∧
    s.pause engineOk = s ∧
    s.stop engineOk = s ∧
    s.set_position engineOk p = s ∧
    (s.set_volume v).1 = s := by
  unfold AudioPlayer.play AudioPlayer.pause AudioPlayer.stop
    AudioPlayer.set_position AudioPlayer.set_volume
  rw [h]
  simp

/-- Witness for C4 on the freshly constructed (unloaded) player. -/
theorem C4_unloaded_commands_witness :
    AudioPlayer.init.is_loaded = false ∧
    (AudioPlayer.init.play true = (AudioPlayer.init, some PlayerError.notLoaded) ∧
     AudioPlayer.init.pause true = AudioPlayer.init ∧
     AudioPlayer.init.stop true = AudioPlayer.init ∧
     AudioPlayer.init.set_position true 7 = AudioPlayer.init ∧
     (AudioPlayer.init.set_volume 150).1 = AudioPlayer.init) :=
  ⟨rfl, C4_unloaded_commands AudioPlayer.init rfl true 7 150⟩

/-- C5 counterexample: the claim "both flags are false when the session is
unloaded" fails on a reachable trace: load a file, play it, then attempt a
load of a missing file — the failed load's `except` branch clears
`is_loaded` but leaves `is_playing` set. -/
theorem C5_flags_counterexample :
    (AudioPlayer.run AudioPlayer.init
      [Op.load "a.mp3" true true 120000, Op.play true,
       Op.load "b.mp3" false true 0]).is_loaded = false ∧
    (AudioPlayer.run AudioPlayer.init
      [Op.load "a.mp3" true true 120000, Op.play true,
       Op.load "b.mp3" false true 0]).is_playing = true :=
  ⟨rfl, rfl⟩

/-- C5 amended: in every state reachable from the initial state by load,
play, pause, unpause, stop (and seek) commands, the playing and paused
flags are never both true; a successful `stop` on a loaded session clears
both flags; and along traces in which every load succeeds, an unloaded
state has both flags false.  (A load that fails while playing, however,
leaves an unloaded state with the playing flag still set.) -/
theorem C5_flags_invariant (ops : List Op) (s : AudioPlayer) :
    (¬ ((AudioPlayer.run AudioPlayer.init ops).is_playing = true ∧
        (AudioPlayer.run AudioPlayer.init ops).is_paused = true)) ∧
    (s.is_loaded = true →
      (s.stop true).is_playing = false ∧ (s.stop true).is_paused = false) ∧
    ((∀ op ∈ ops, op.loadSucceeds = true) →
      (AudioPlayer.run AudioPlayer.init ops).is_loaded = false →
      (AudioPlayer.run AudioPlayer.init ops).is_playing = false ∧
        (AudioPlayer.run AudioPlayer.init ops).is_paused = false) := by
  refine ⟨?_, ?_, ?_⟩
  · exact AudioPlayer.run_preserves
      (fun t => ¬ (t.is_playing = true ∧ t.is_paused = true))
      step_not_both_flags ops AudioPlayer.init (by simp [AudioPlayer.init])
  · intro hl
    simp [AudioPlayer.stop, hl]
  · intro hall
    exact AudioPlayer.run_preserves_of_all
      (fun t => t.is_loaded = false → t.is_playing = false ∧ t.is_paused = false)
      Op.loadSucceeds step_unloaded_flags ops AudioPlayer.init hall
      (by simp [AudioPlayer.init])

/-- Witness for C5 on the trace `[play]` (which stays unloaded) and a
loaded player for the stop clause. -/
theorem C5_flags_invariant_witness :
    (¬ ((AudioPlayer.run AudioPlayer.init [Op.play true]).is_playing = true ∧
        (AudioPlayer.run AudioPlayer.init [Op.play true]).is_paused = true)) ∧
    ((loadedPlayer.stop true).is_playing = false ∧
     (loadedPlayer.stop true).is_paused = false) ∧
    ((AudioPlayer.run AudioPlayer.init [Op.play true]).is_playing = false ∧
     (AudioPlayer.run AudioPlayer.init [Op.play true]).is_paused = false) := by
  have h := C5_flags_invariant [Op.play true] loadedPlayer
  refine ⟨h.1, h.2.1 rfl, h.2.2 ?_ rfl⟩
  intro op hop
  rw [List.mem_singleton] at hop
  subst hop
  rfl

/-- C6 counterexample: `set_position` does not clamp: seeking a loaded
120-second track to 121 seconds stores a tracked position strictly greater
than the known duration. -/
theorem C6_seek_counterexample :
    0 < (loadedPlayer.set_position true 121).duration ∧
    (loadedPlayer.set_position true 121).duration <
      (loadedPlayer.set_position true 121).current_position := by
  constructor <;> norm_num [loadedPlayer, AudioPlayer.load_file,
    AudioPlayer.set_position, AudioPlayer.init]

/-- C6 amended: `set_position` stores the raw seek target unclamped, so
"position ≤ duration when the duration is known" is preserved by a command
only under the proviso that any seek target is at most the duration; load,
play, pause, unpause and stop preserve it unconditionally. -/
theorem C6_step_position_bound (s : AudioPlayer) (op : Op) (hP : s.posInv)
    (hseek : ∀ ok t, op = Op.seek ok t → t ≤ s.duration) :
    (s.step op).posInv := by
  unfold AudioPlayer.posInv at hP ⊢
  cases op with
  | load path fe ok dms =>
    simp only [AudioPlayer.step, AudioPlayer.load_file]
    split_ifs <;> simp_all
    exact div_nonneg (by exact_mod_cast le_of_lt ‹(0 : ℤ) < dms›) (by norm_num)
  | play ok =>
    simp only [AudioPlayer.step, AudioPlayer.play]
    split_ifs <;> simp_all
  | pause ok =>
    simp only [AudioPlayer.step, AudioPlayer.pause]
    split_ifs <;> simp_all
  | unpause ok =>
    simp only [AudioPlayer.step, AudioPlayer.unpause]
    split_ifs <;> simp_all
  | stop ok =>
    simp only [AudioPlayer.step, AudioPlayer.stop]
    split_ifs <;> simp_all
    intro h
    exact le_of_lt h
  | seek ok t =>
    have ht := hseek ok t rfl
    simp only [AudioPlayer.step, AudioPlayer.set_position]
    split_ifs <;> simp_all

/-- Witness for C6 on the loaded 120-second player with an in-bounds seek
to 45 seconds. -/
theorem C6_step_position_bound_witness :
    loadedPlayer.posInv ∧
    (AudioPlayer.step loadedPlayer (Op.seek true 45)).posInv := by
  have hinv : loadedPlayer.posInv := by
    intro h
    norm_num [loadedPlayer, AudioPlayer.load_file, AudioPlayer.init]
  refine ⟨hinv, C6_step_position_bound loadedPlayer (Op.seek true 45) hinv ?_⟩
  intro ok t h
  injection h with h1 h2
  subst h2
  norm_num [loadedPlayer, AudioPlayer.load_file, AudioPlayer.init]

/-- C3: entering a track whose saved position is `p > 0` loads it and runs
the restore sequence (play, seek to `p`, pause); when the sequence
completes, the adapter position equals `p` and the state is Paused
(playing false, paused true, and the screen flag is back to false).  When
the saved position is `0`, no restore runs and playback is not
auto-started. -/
theorem C3_resume_restore (db : Store) (path : String) (duration_ms : ℤ)
    (p : ℚ) (hget : get_position db path = p) :
    (0 < p →
      ((PlayerScreen.load_audiobook db path true true true true true duration_ms).player.current_position = p ∧
       (PlayerScreen.load_audiobook db path true true true true true duration_ms).player.is_playing = false ∧
       (PlayerScreen.load_audiobook db path true true true true true duration_ms).player.is_paused = true ∧
       (PlayerScreen.load_audiobook db path true true true true true duration_ms).is_playing = false)) ∧
    (p = 0 →
      ((PlayerScreen.load_audiobook db path true true true true true duration_ms).player.is_playing = false ∧
       (PlayerScreen.load_audiobook db path true true true true true duration_ms).player.is_paused = false ∧
       (PlayerScreen.load_audiobook db path true true true true true duration_ms).player.current_position = 0 ∧
       (PlayerScreen.load_audiobook db path true true true true true duration_ms).is_playing = false)) := by
  constructor
  · intro hp
    simp only [PlayerScreen.load_audiobook, AudioPlayer.init, AudioPlayer.load_file,
      AudioPlayer.play, AudioPlayer.set_position, AudioPlayer.pause, hget]
    rw [if_pos hp]
    simp
  · intro hp0
    simp only [PlayerScreen.load_audiobook, AudioPlayer.init, AudioPlayer.load_file,
      AudioPlayer.play, AudioPlayer.set_position, AudioPlayer.pause, hget, hp0]
    norm_num

/-- Witness for C3: save `45.0` for track `"t"` into an empty store, then
enter `"t"` (engine reports 120000 ms): position `45`, state Paused. -/
theorem C3_resume_restore_witness :
    get_position (save_position [] "t" 45) "t" = 45 ∧ (0 : ℚ) < 45 ∧
    ((PlayerScreen.load_audiobook (save_position [] "t" 45) "t" true true true true true 120000).player.current_position = 45 ∧
     (PlayerScreen.load_audiobook (save_position [] "t" 45) "t" true true true true true 120000).player.is_playing = false ∧
     (PlayerScreen.load_audiobook (save_position [] "t" 45) "t" true true true true true 120000).player.is_paused = true ∧
     (PlayerScreen.load_audiobook (save_position [] "t" 45) "t" true true true true true 120000).is_playing = false) := by
  have h45 : get_position (save_position [] "t" 45) "t" = 45 := by
    simp [get_position, save_position, List.find?]
  exact ⟨h45, by norm_num,
    (C3_resume_restore (save_position [] "t" 45) "t" 120000 45 h45).1 (by norm_num)⟩

/-- C7: for the engine-reported position `p` and known duration `d` of a
loaded track (`d ≥ 0`), `skip_forward` seeks to `p + 30` when
`p + 30 < d` and to `max (d - 1) 0` otherwise, and `skip_backward` seeks
to `max (p - 30) 0`. -/
theorem C7_skip_formulas (s : AudioPlayer) (hl : s.is_loaded = true)
    (_hd : 0 ≤ s.duration) (position_ms : ℤ) :
    (PlayerScreen.skip_forward s true position_ms true).current_position =
      (if s.get_position true position_ms + 30 < s.duration
       then s.get_position true position_ms + 30
       else max (s.duration - 1) 0) ∧
    (PlayerScreen.skip_backward s true position_ms true).current_position =
      max (s.get_position true position_ms - 30) 0 := by
  constructor
  · simp only [PlayerScreen.skip_forward, AudioPlayer.get_duration,
      AudioPlayer.set_position, hl]
    simp only [Bool.true_eq_false, if_false, if_true]
    split_ifs <;> first | rfl | linarith
  · simp only [PlayerScreen.skip_backward, AudioPlayer.set_position, hl]
    simp

/-- Witness for C7 on the loaded 120-second player with the engine clock at
30000 ms. -/
theorem C7_skip_formulas_witness :
    loadedPlayer.is_loaded = true ∧ (0 : ℚ) ≤ loadedPlayer.duration ∧
    ((PlayerScreen.skip_forward loadedPlayer true 30000 true).current_position =
       (if loadedPlayer.get_position true 30000 + 30 < loadedPlayer.duration
        then loadedPlayer.get_position true 30000 + 30
        else max (loadedPlayer.duration - 1) 0) ∧
     (PlayerScreen.skip_backward loadedPlayer true 30000 true).current_position =
       max (loadedPlayer.get_position true 30000 - 30) 0) :=
  ⟨rfl, by norm_num [loadedPlayer, AudioPlayer.load_file, AudioPlayer.init],
   C7_skip_formulas loadedPlayer rfl
     (by norm_num [loadedPlayer, AudioPlayer.load_file, AudioPlayer.init]) 30000⟩

/-- C8 counterexample: on a tick with a loaded file of unknown duration
(`duration = 0`), the poller reports nothing at all to the UI — in
particular it does not report `(current, 0, 0.0)`. -/
theorem C8_progress_counterexample :
    (update_progress_tick unknownDurationPlayer true 30000 false).1 = none ∧
    ¬ (update_progress_tick unknownDurationPlayer true 30000 false).1 =
        some (30, 0, 0) := by
  have h : (update_progress_tick unknownDurationPlayer true 30000 false).1 = none := rfl
  exact ⟨h, by rw [h]; simp⟩

/-- C8 amended: on each tick with a loaded file, the poller reports
`(current, duration, current/duration*100)` to the UI when
`duration > 0`, and reports nothing when the duration is unknown
(`duration = 0`). -/
theorem C8_progress_report (s : AudioPlayer) (position_ms : ℤ)
    (hl : s.is_loaded = true) :
    (update_progress_tick s true position_ms false).1 =
      (if 0 < s.duration then
         some (s.get_position true position_ms, s.duration,
               s.get_position true position_ms / s.duration * 100)
       else none) := by
  simp only [update_progress_tick, AudioPlayer.get_duration, hl]
  simp

/-- Witness for C8: current `30`, duration `120` reports progress `25.0`. -/
theorem C8_progress_report_witness :
    loadedPlayer.is_loaded = true ∧
    (update_progress_tick loadedPlayer true 30000 false).1 = some (30, 120, 25) := by
  refine ⟨rfl, ?_⟩
  rw [C8_progress_report loadedPlayer 30000 rfl]
  norm_num [loadedPlayer, AudioPlayer.load_file, AudioPlayer.init,
    AudioPlayer.get_position]
